import Mathlib

/-!
Verification model of src/bot.py (telegram-file-bot).

Python dicts are modelled as association lists with unique keys kept in
insertion order: assignment to an existing key replaces the value in place,
assignment to a fresh key appends at the end, and del removes the binding.
Timestamps are natural numbers (epoch seconds); Telegram user and chat
identifiers are integers.  External transport calls (message deletion,
purge notification, copy_message, document upload) are modelled by oracle
parameters giving each call's outcome; the source wraps every such call in
try/except, so a transport failure never aborts a handler.
-/

namespace TelegramFileBot

/-- Python dict lookup: the value at the first (in a dict, unique) binding
of the key. -/
def lookupA {K V : Type} [DecidableEq K] : List (K × V) → K → Option V
  | [], _ => none
  | p :: rest, k => if p.1 = k then some p.2 else lookupA rest k

/-- Python dict assignment d[k] = v: replace in place when the key is
present, otherwise append at the end. -/
def insertA {K V : Type} [DecidableEq K] (k : K) (v : V) : List (K × V) → List (K × V)
  | [] => [(k, v)]
  | p :: rest => if p.1 = k then (k, v) :: rest else p :: insertA k v rest

/-- Python del d[k]: remove the first (unique) binding of the key. -/
def eraseA {K V : Type} [DecidableEq K] (k : K) : List (K × V) → List (K × V)
  | [] => []
  | p :: rest => if p.1 = k then rest else p :: eraseA k rest

section AssocLemmas

variable {K V : Type} [DecidableEq K]

theorem lookupA_eq_none {l : List (K × V)} {k : K} :
    lookupA l k = none ↔ k ∉ l.map Prod.fst := by
  induction l with
  | nil => simp [lookupA]
  | cons p rest ih =>
    by_cases h : p.1 = k
    · simp [lookupA, h]
    · rw [List.map_cons, List.mem_cons, not_or]
      simp only [lookupA, h, if_false]
      rw [ih]
      constructor
      · intro hn
        exact ⟨fun he => h he.symm, hn⟩
      · intro hn
        exact hn.2

theorem mem_of_lookupA_eq_some {l : List (K × V)} {k : K} {v : V}
    (h : lookupA l k = some v) : (k, v) ∈ l := by
  induction l with
  | nil => simp [lookupA] at h
  | cons p rest ih =>
    by_cases hk : p.1 = k
    · simp only [lookupA, hk, if_true, Option.some.injEq] at h
      rw [List.mem_cons]
      left
      obtain ⟨a, b⟩ := p
      have ha : a = k := hk
      have hb : b = v := h
      rw [← ha, ← hb]
    · simp only [lookupA, hk, if_false] at h
      exact List.mem_cons_of_mem _ (ih h)

theorem lookupA_of_mem_nodup {l : List (K × V)} {k : K} {v : V}
    (hnd : (l.map Prod.fst).Nodup) (h : (k, v) ∈ l) : lookupA l k = some v := by
  induction l with
  | nil => simp at h
  | cons p rest ih =>
    simp only [List.map_cons, List.nodup_cons] at hnd
    rcases List.mem_cons.mp h with h1 | h1
    · subst h1
      simp [lookupA]
    · have hne : p.1 ≠ k := by
        intro he
        exact hnd.1 (he ▸ List.mem_map.mpr ⟨(k, v), h1, rfl⟩)
      simp [lookupA, hne, ih hnd.2 h1]

@[simp] theorem lookupA_insertA_self (k : K) (v : V) (l : List (K × V)) :
    lookupA (insertA k v l) k = some v := by
  induction l with
  | nil => simp [insertA, lookupA]
  | cons p rest ih =>
    by_cases h : p.1 = k
    · simp [insertA, h, lookupA]
    · simp [insertA, h, lookupA, ih]

theorem lookupA_insertA_ne {k k' : K} (h : k' ≠ k) (v : V) (l : List (K × V)) :
    lookupA (insertA k v l) k' = lookupA l k' := by
  induction l with
  | nil => simp [insertA, lookupA, Ne.symm h]
  | cons p rest ih =>
    by_cases hp : p.1 = k
    · subst hp
      simp [insertA, lookupA, Ne.symm h]
    · simp only [insertA, hp, if_false]
      by_cases hp' : p.1 = k'
      · simp [lookupA, hp']
      · simp [lookupA, hp', ih]

theorem eraseA_sublist (k : K) (l : List (K × V)) : (eraseA k l).Sublist l := by
  induction l with
  | nil => simp [eraseA]
  | cons p rest ih =>
    by_cases h : p.1 = k
    · simp only [eraseA, h, if_true]
      exact (List.sublist_cons_self p rest)
    · simp only [eraseA, h, if_false]
      exact List.Sublist.cons₂ p ih

theorem nodup_keys_eraseA {l : List (K × V)} (k : K)
    (hnd : (l.map Prod.fst).Nodup) : ((eraseA k l).map Prod.fst).Nodup :=
  (List.Sublist.map Prod.fst (eraseA_sublist k l)).nodup hnd

theorem lookupA_eraseA_self {l : List (K × V)} {k : K}
    (hnd : (l.map Prod.fst).Nodup) : lookupA (eraseA k l) k = none := by
  induction l with
  | nil => simp [eraseA, lookupA]
  | cons p rest ih =>
    simp only [List.map_cons, List.nodup_cons] at hnd
    by_cases h : p.1 = k
    · simp only [eraseA, h, if_true]
      rw [lookupA_eq_none]
      exact h ▸ hnd.1
    · simp [eraseA, h, lookupA, ih hnd.2]

theorem lookupA_eraseA_ne {l : List (K × V)} {k k' : K} (h : k' ≠ k) :
    lookupA (eraseA k l) k' = lookupA l k' := by
  induction l with
  | nil => simp [eraseA]
  | cons p rest ih =>
    by_cases hp : p.1 = k
    · subst hp
      simp [eraseA, lookupA, Ne.symm h]
    · simp only [eraseA, hp, if_false]
      by_cases hp' : p.1 = k'
      · simp [lookupA, hp']
      · simp [lookupA, hp', ih]

theorem lookupA_eraseA_of_none {l : List (K × V)} {k k' : K}
    (h : lookupA l k' = none) : lookupA (eraseA k l) k' = none := by
  rw [lookupA_eq_none] at h ⊢
  intro hmem
  exact h (List.Sublist.mem hmem (List.Sublist.map Prod.fst (eraseA_sublist k l)))

/-- Erasing a list of keys never creates a binding. -/
theorem lookupA_foldl_eraseA_of_none {ids : List K} {s : List (K × V)} {k : K}
    (h : lookupA s k = none) :
    lookupA (ids.foldl (fun acc i => eraseA i acc) s) k = none := by
  induction ids generalizing s with
  | nil => simpa using h
  | cons i rest ih =>
    simp only [List.foldl_cons]
    exact ih (lookupA_eraseA_of_none h)

theorem nodup_keys_foldl_eraseA {ids : List K} {s : List (K × V)}
    (hnd : (s.map Prod.fst).Nodup) :
    ((ids.foldl (fun acc i => eraseA i acc) s).map Prod.fst).Nodup := by
  induction ids generalizing s with
  | nil => simpa using hnd
  | cons i rest ih =>
    simp only [List.foldl_cons]
    exact ih (nodup_keys_eraseA i hnd)

theorem lookupA_foldl_eraseA_of_mem {ids : List K} {s : List (K × V)} {k : K}
    (hnd : (s.map Prod.fst).Nodup) (h : k ∈ ids) :
    lookupA (ids.foldl (fun acc i => eraseA i acc) s) k = none := by
  induction ids generalizing s with
  | nil => simp at h
  | cons i rest ih =>
    simp only [List.foldl_cons]
    rcases List.mem_cons.mp h with h1 | h1
    · subst h1
      exact lookupA_foldl_eraseA_of_none (lookupA_eraseA_self hnd)
    · exact ih (nodup_keys_eraseA i hnd) h1

theorem lookupA_foldl_eraseA_of_not_mem {ids : List K} {s : List (K × V)} {k : K}
    (h : k ∉ ids) :
    lookupA (ids.foldl (fun acc i => eraseA i acc) s) k = lookupA s k := by
  induction ids generalizing s with
  | nil => simp
  | cons i rest ih =>
    simp only [List.foldl_cons]
    have hne : k ≠ i := fun he => h (he ▸ List.mem_cons_self i rest)
    rw [ih (fun hm => h (List.mem_cons_of_mem i hm)), lookupA_eraseA_ne hne]

end AssocLemmas

/-! ## Data model (src/bot.py, module-level tables)

One record of payload_data: {"name": ..., "files": [...], "created_at": ...}
(the display-only "created_date" string is omitted).  files is the ordered
list of admin-chat message ids collected for the payload. -/

structure PayloadRec where
  name : String
  files : List Nat
  created_at : Nat
  deriving DecidableEq

/-- One admin_sessions record: {"payload": name, "files": [...]}. -/
structure Session where
  payload : String
  files : List Nat
  deriving DecidableEq

/-- caption_data: {"start_caption": ..., "end_caption": ...}. -/
structure CaptionData where
  start_caption : String
  end_caption : String
  deriving DecidableEq

/-- One scheduled_deletions record: {"chat_id", "message_ids", "delete_at",
"payload"} (the display-only "scheduled_date" string is omitted). -/
structure DeletionTask where
  chat_id : Int
  message_ids : List Nat
  delete_at : Nat
  payload : String
  deriving DecidableEq

/-- The module-level mutable tables of src/bot.py.  user_access maps a
payload code to a dict from the requester id (stringified, as json keys) to
the time of the most recent recorded access. -/
structure BotState where
  payload_data : List (String × PayloadRec)
  user_access : List (String × List (String × Nat))
  admin_sessions : List (Int × Session)
  caption_data : CaptionData
  scheduled_deletions : List (String × DeletionTask)
  telegram_backup_ids : List (String × Nat)
  deriving DecidableEq

/-- Outcome of processing one overdue deletion task: how many of its
messages were deleted (per-message failures are caught and only logged) and
whether the best-effort purge notification went through. -/
structure ExecResult where
  taskId : String
  deleted : Nat
  total : Nat
  notified : Bool
  deriving DecidableEq

/-! ## Lazy purge drain (check_and_delete_due_messages, bot.py lines 259-306)

delOk chat msg gives the outcome of bot.delete_message, ntfOk chat the
outcome of the deletion notice; both are wrapped in try/except in the
source, so their outcome never changes control flow or the stored tables.
The source collects to_delete = all ids with current_time >= delete_at,
then for each one attempts the per-message deletes and the notice and
unconditionally runs del scheduled_deletions[deletion_id]; the early
returns on an empty dict or an empty to_delete leave the state exactly as
the general path does. -/
def check_and_delete_due_messages (delOk : Int → Nat → Bool) (ntfOk : Int → Bool)
    (now : Nat) (st : BotState) : BotState × List ExecResult :=
  let due := st.scheduled_deletions.filter (fun p => decide (p.2.delete_at ≤ now))
  let to_delete := due.map Prod.fst
  let results := due.map (fun p =>
    { taskId := p.1
      deleted := (p.2.message_ids.filter (fun m => delOk p.2.chat_id m)).length
      total := p.2.message_ids.length
      notified := ntfOk p.2.chat_id })
  ({ st with scheduled_deletions :=
      to_delete.foldl (fun s i => eraseA i s) st.scheduled_deletions }, results)

/-- The task ids executed by one drain call. -/
def execIds (delOk : Int → Nat → Bool) (ntfOk : Int → Bool) (now : Nat)
    (st : BotState) : List String :=
  (check_and_delete_due_messages delOk ntfOk now st).2.map ExecResult.taskId

/-- A sequence of drain calls (each with its own transport oracles and its
own wall-clock instant), together with every task id executed anywhere in
the sequence. -/
def drainSeq : List ((Int → Nat → Bool) × (Int → Bool) × Nat) → BotState →
    BotState × List String
  | [], st => (st, [])
  | c :: rest, st =>
    let r2 := drainSeq rest (check_and_delete_due_messages c.1 c.2.1 c.2.2 st).1
    (r2.1, execIds c.1 c.2.1 c.2.2 st ++ r2.2)

/-! ## Cloud backup (backup_to_telegram, bot.py lines 71-101)

uploadRes is the outcome of bot.send_document: some msgId when the upload
completed (the returned message id), none when it raised.  The whole body
is wrapped in try/except: on failure the function returns False and the
pointer table is untouched; only after a successful upload is the pointer
telegram_backup_ids[file_type] = sent_message.message_id written. -/
def backup_to_telegram (uploadRes : Option Nat) (file_type : String)
    (st : BotState) : BotState × Bool :=
  match uploadRes with
  | some msgId =>
    ({ st with telegram_backup_ids := insertA file_type msgId st.telegram_backup_ids },
      true)
  | none => (st, false)

/-- deletion_id = f"{chat_id}_{int(time.time())}_{secrets.token_hex(4)}"
(bot.py line 362); the random suffix is a parameter. -/
def deletionId (chatId : Int) (now : Nat) (suffix : String) : String :=
  toString chatId ++ "_" ++ toString now ++ "_" ++ suffix

/-- The recorded access time user_access[code][user], when present. -/
def accessTime (st : BotState) (code : String) (user : String) : Option Nat :=
  (lookupA st.user_access code).bind (fun m => lookupA m user)

inductive StartReply where
  | invalidLink
  | delivered (successCount : Nat)
  | adminWelcome
  | userWelcome
  deriving DecidableEq

/-! ## /start handler (bot.py lines 308-405)

copyRes fileId is the outcome of bot.copy_message for that admin-chat
message id: some sentMsgId on success, none when it raised (the exception
is caught and the loop continues).  The three wall-clock reads in the
source (inside the drain, for delete_at and for user_access) are the same
instant now.  With an argument, the handler drains, rejects unknown codes,
attempts to copy every file, then unconditionally schedules the deletion
task and records user_access[payload][str(user_id)] = now. -/
def start (delOk : Int → Nat → Bool) (ntfOk : Int → Bool)
    (copyRes : Nat → Option Nat) (suffix : String) (adminId userId chatId : Int)
    (arg : Option String) (now : Nat) (st : BotState) : BotState × StartReply :=
  let st1 := (check_and_delete_due_messages delOk ntfOk now st).1
  match arg with
  | some payload =>
    match lookupA st1.payload_data payload with
    | none => (st1, StartReply.invalidLink)
    | some rec =>
      let sent_message_ids := rec.files.filterMap copyRes
      let did := deletionId chatId now suffix
      let task : DeletionTask :=
        { chat_id := chatId
          message_ids := sent_message_ids
          delete_at := now + 3600
          payload := payload }
      let st2 := { st1 with
        scheduled_deletions := insertA did task st1.scheduled_deletions }
      let inner := (lookupA st2.user_access payload).getD []
      let st3 := { st2 with
        user_access := insertA payload (insertA (toString userId) now inner)
          st2.user_access }
      (st3, StartReply.delivered sent_message_ids.length)
  | none =>
    (st1, if userId = adminId then StartReply.adminWelcome else StartReply.userWelcome)

inductive StopReply where
  | notAdmin
  | noSession
  | noFiles
  | created (code : String) (fileCount : Nat)
  deriving DecidableEq

/-! ## /stopp handler (stop_payload, bot.py lines 432-484)

freshCode is the secrets.token_urlsafe(16) result; uploadRes the outcome of
the automatic backup upload that follows creation.  With an empty session
file list the handler replies an error, drops the session and returns
before any registry write. -/
def stop_payload (delOk : Int → Nat → Bool) (ntfOk : Int → Bool)
    (uploadRes : Option Nat) (freshCode : String) (adminId userId : Int)
    (now : Nat) (st : BotState) : BotState × StopReply :=
  let st1 := (check_and_delete_due_messages delOk ntfOk now st).1
  if userId ≠ adminId then (st1, StopReply.notAdmin)
  else
    match lookupA st1.admin_sessions userId with
    | none => (st1, StopReply.noSession)
    | some session =>
      if session.files = [] then
        ({ st1 with admin_sessions := eraseA userId st1.admin_sessions },
          StopReply.noFiles)
      else
        let newRec : PayloadRec :=
          { name := session.payload, files := session.files, created_at := now }
        let st2 := { st1 with
          payload_data := insertA freshCode newRec st1.payload_data }
        let st3 := (backup_to_telegram uploadRes "payload" st2).1
        let st4 := { st3 with admin_sessions := eraseA userId st3.admin_sessions }
        (st4, StopReply.created freshCode session.files.length)

inductive DeleteReply where
  | notAdmin
  | usage
  | notFound
  | deleted (name : String)
  deriving DecidableEq

/-! ## /deletepayload handler (delete_payload, bot.py lines 558-590)

Drains, checks admin and the argument, rejects unknown codes, then removes
the payload, removes its user_access entry when present (eraseA on a
missing key is the identity, matching the guarded del), and re-uploads the
payload backup. -/
def delete_payload (delOk : Int → Nat → Bool) (ntfOk : Int → Bool)
    (uploadRes : Option Nat) (adminId userId : Int) (arg : Option String)
    (now : Nat) (st : BotState) : BotState × DeleteReply :=
  let st1 := (check_and_delete_due_messages delOk ntfOk now st).1
  if userId ≠ adminId then (st1, DeleteReply.notAdmin)
  else
    match arg with
    | none => (st1, DeleteReply.usage)
    | some payload =>
      match lookupA st1.payload_data payload with
      | none => (st1, DeleteReply.notFound)
      | some rec =>
        let st2 := { st1 with payload_data := eraseA payload st1.payload_data }
        let st3 := { st2 with user_access := eraseA payload st2.user_access }
        let st4 := (backup_to_telegram uploadRes "payload" st3).1
        (st4, DeleteReply.deleted rec.name)

/-! ## JSON-upload branch of handle_messages (bot.py lines 759-808)

The message handler drains first; when the admin sends a .json document
whose parsed content looks like payload data ("name" and "files" appear in
its string form, which holds for every payload table), the whole
payload_data table is replaced by the uploaded data and backed up.
new_data is the parsed upload. -/
def handle_json_upload (delOk : Int → Nat → Bool) (ntfOk : Int → Bool)
    (uploadRes : Option Nat) (adminId userId : Int)
    (new_data : List (String × PayloadRec)) (now : Nat) (st : BotState) : BotState :=
  let st1 := (check_and_delete_due_messages delOk ntfOk now st).1
  if userId = adminId then
    let st2 := { st1 with payload_data := new_data }
    (backup_to_telegram uploadRes "payload" st2).1
  else st1

/-! ## /backupnow handler (backup_now, bot.py lines 649-679)

Note: unlike the handlers above, this handler never calls
check_and_delete_due_messages.  It uploads the four tables in turn
(upl names the per-table upload outcome) and reports the success count. -/
def backup_now (upl : String → Option Nat) (adminId userId : Int)
    (st : BotState) : BotState × Nat :=
  if userId ≠ adminId then (st, 0)
  else
    let r1 := backup_to_telegram (upl "payload") "payload" st
    let r2 := backup_to_telegram (upl "access") "access" r1.1
    let r3 := backup_to_telegram (upl "caption") "caption" r2.1
    let r4 := backup_to_telegram (upl "deletion") "deletion" r3.1
    (r4.1, (cond r1.2 1 0) + (cond r2.2 1 0) + (cond r3.2 1 0) + (cond r4.2 1 0))

/-! ## Snapshot/restore bridge against the transport blob sink

The sink is the Telegram document store: send_document stores the uploaded
bytes, assigns the next message id to the sent message, and makes the
document retrievable through get_file by its transport-assigned opaque
file identifier (real file_id values are opaque base64-like tokens; they
are modelled as the tag "AgAD" followed by the message number, which is
never of the form "get_from_message_...").  -/
structure Sink where
  files : List (String × String)
  nextMsgId : Nat
  deriving DecidableEq

/-- The transport-assigned file identifier of the document sent as message
m. -/
def fileIdFor (m : Nat) : String := "AgAD" ++ toString m

def send_document (bytes : String) (s : Sink) : Sink × Nat :=
  ({ files := (fileIdFor s.nextMsgId, bytes) :: s.files,
     nextMsgId := s.nextMsgId + 1 }, s.nextMsgId)

def get_file (fid : String) (s : Sink) : Option String := lookupA s.files fid

/-- Every file entry of the sink was stored by send_document, so carries a
transport-assigned identifier. -/
def SinkWF (s : Sink) : Prop := ∀ p ∈ s.files, ∃ k, p.1 = fileIdFor k

/-- backup_to_telegram on the success path, with the sink explicit: the
serialized table bytes are uploaded and the returned message id becomes the
stored pointer. -/
def backup_via_sink (bytes : String) (file_type : String) (s : Sink)
    (st : BotState) : Sink × BotState :=
  let r := send_document bytes s
  (r.1, { st with telegram_backup_ids := insertA file_type r.2 st.telegram_backup_ids })

/-- restore_from_telegram (bot.py lines 103-129): reads the stored pointer
(message id), then calls bot.get_file with the fabricated identifier
f"get_from_message_{message_id}"; a get_file failure is caught and the
function returns (False, None), modelled as none.  On a successful download
the decoded bytes would be returned. -/
def restore_from_telegram (s : Sink) (file_type : String) (st : BotState) :
    Option String :=
  match lookupA st.telegram_backup_ids file_type with
  | none => none
  | some messageId =>
    match get_file ("get_from_message_" ++ toString messageId) s with
    | none => none
    | some bytes => some bytes

/-! ## Facts about one drain call -/

theorem check_payload_data (delOk : Int → Nat → Bool) (ntfOk : Int → Bool)
    (now : Nat) (st : BotState) :
    (check_and_delete_due_messages delOk ntfOk now st).1.payload_data =
      st.payload_data := rfl

theorem check_user_access (delOk : Int → Nat → Bool) (ntfOk : Int → Bool)
    (now : Nat) (st : BotState) :
    (check_and_delete_due_messages delOk ntfOk now st).1.user_access =
      st.user_access := rfl

theorem check_admin_sessions (delOk : Int → Nat → Bool) (ntfOk : Int → Bool)
    (now : Nat) (st : BotState) :
    (check_and_delete_due_messages delOk ntfOk now st).1.admin_sessions =
      st.admin_sessions := rfl

theorem check_backup_ids (delOk : Int → Nat → Bool) (ntfOk : Int → Bool)
    (now : Nat) (st : BotState) :
    (check_and_delete_due_messages delOk ntfOk now st).1.telegram_backup_ids =
      st.telegram_backup_ids := rfl

theorem check_sched_eq (delOk : Int → Nat → Bool) (ntfOk : Int → Bool)
    (now : Nat) (st : BotState) :
    (check_and_delete_due_messages delOk ntfOk now st).1.scheduled_deletions =
      ((st.scheduled_deletions.filter
          (fun p => decide (p.2.delete_at ≤ now))).map Prod.fst).foldl
        (fun s i => eraseA i s) st.scheduled_deletions := rfl

theorem execIds_eq (delOk : Int → Nat → Bool) (ntfOk : Int → Bool)
    (now : Nat) (st : BotState) :
    execIds delOk ntfOk now st =
      (st.scheduled_deletions.filter
        (fun p => decide (p.2.delete_at ≤ now))).map Prod.fst := by
  simp [execIds, check_and_delete_due_messages, List.map_map, Function.comp]

/-- A task due at now and present in the queue is gone after the drain,
whatever the transport outcomes were. -/
theorem check_removes_due {delOk : Int → Nat → Bool} {ntfOk : Int → Bool}
    {now : Nat} {st : BotState} {id : String} {t : DeletionTask}
    (hnd : (st.scheduled_deletions.map Prod.fst).Nodup)
    (hl : lookupA st.scheduled_deletions id = some t)
    (hdue : t.delete_at ≤ now) :
    lookupA (check_and_delete_due_messages delOk ntfOk now st).1.scheduled_deletions
      id = none := by
  rw [check_sched_eq]
  apply lookupA_foldl_eraseA_of_mem hnd
  exact List.mem_map.mpr ⟨(id, t),
    List.mem_filter.mpr ⟨mem_of_lookupA_eq_some hl, by simpa using hdue⟩, rfl⟩

/-- A task not yet due survives the drain untouched. -/
theorem check_keeps_not_due {delOk : Int → Nat → Bool} {ntfOk : Int → Bool}
    {now : Nat} {st : BotState} {id : String} {t : DeletionTask}
    (hnd : (st.scheduled_deletions.map Prod.fst).Nodup)
    (hl : lookupA st.scheduled_deletions id = some t)
    (hnot : now < t.delete_at) :
    lookupA (check_and_delete_due_messages delOk ntfOk now st).1.scheduled_deletions
      id = some t := by
  rw [check_sched_eq]
  rw [lookupA_foldl_eraseA_of_not_mem, hl]
  intro hmem
  obtain ⟨p, hp, hfst⟩ := List.mem_map.mp hmem
  obtain ⟨hpm, hpdue⟩ := List.mem_filter.mp hp
  have hpl : lookupA st.scheduled_deletions p.1 = some p.2 :=
    lookupA_of_mem_nodup hnd (by exact hpm)
  rw [hfst, hl] at hpl
  have hpt : p.2 = t := by
    injection hpl with hv
    exact hv.symm
  have hle : p.2.delete_at ≤ now := of_decide_eq_true hpdue
  rw [hpt] at hle
  omega

/-- The drain never creates a queue entry. -/
theorem check_none_preserved {delOk : Int → Nat → Bool} {ntfOk : Int → Bool}
    {now : Nat} {st : BotState} {id : String}
    (h : lookupA st.scheduled_deletions id = none) :
    lookupA (check_and_delete_due_messages delOk ntfOk now st).1.scheduled_deletions
      id = none := by
  rw [check_sched_eq]
  exact lookupA_foldl_eraseA_of_none h

theorem check_nodup_preserved {delOk : Int → Nat → Bool} {ntfOk : Int → Bool}
    {now : Nat} {st : BotState}
    (hnd : (st.scheduled_deletions.map Prod.fst).Nodup) :
    (((check_and_delete_due_messages delOk ntfOk now st).1.scheduled_deletions).map
      Prod.fst).Nodup := by
  rw [check_sched_eq]
  exact nodup_keys_foldl_eraseA hnd

theorem execIds_subset_keys {delOk : Int → Nat → Bool} {ntfOk : Int → Bool}
    {now : Nat} {st : BotState} {id : String}
    (h : id ∈ execIds delOk ntfOk now st) :
    id ∈ st.scheduled_deletions.map Prod.fst := by
  rw [execIds_eq] at h
  obtain ⟨p, hp, hfst⟩ := List.mem_map.mp h
  exact List.mem_map.mpr ⟨p, (List.mem_filter.mp hp).1, hfst⟩

theorem execIds_nodup {delOk : Int → Nat → Bool} {ntfOk : Int → Bool}
    {now : Nat} {st : BotState}
    (hnd : (st.scheduled_deletions.map Prod.fst).Nodup) :
    (execIds delOk ntfOk now st).Nodup := by
  rw [execIds_eq]
  exact ((List.filter_sublist _).map Prod.fst).nodup hnd

/-- A task id absent from the queue is never executed by any later drain
sequence. -/
theorem drainSeq_not_executed
    {calls : List ((Int → Nat → Bool) × (Int → Bool) × Nat)} {st : BotState}
    {id : String} (h : lookupA st.scheduled_deletions id = none) :
    id ∉ (drainSeq calls st).2 := by
  induction calls generalizing st with
  | nil => simp [drainSeq]
  | cons c rest ih =>
    simp only [drainSeq, List.mem_append]
    rintro (h1 | h1)
    · exact absurd (execIds_subset_keys h1) (lookupA_eq_none.mp h)
    · exact ih (check_none_preserved h) h1

theorem drainSeq_count_le_one
    {calls : List ((Int → Nat → Bool) × (Int → Bool) × Nat)} {st : BotState}
    (hnd : (st.scheduled_deletions.map Prod.fst).Nodup) (id : String) :
    ((drainSeq calls st).2.count id) ≤ 1 := by
  induction calls generalizing st with
  | nil => simp [drainSeq]
  | cons c rest ih =>
    simp only [drainSeq, List.count_append]
    by_cases hmem : id ∈ execIds c.1 c.2.1 c.2.2 st
    · have h1 : (execIds c.1 c.2.1 c.2.2 st).count id ≤ 1 :=
        List.nodup_iff_count_le_one.mp (execIds_nodup hnd) id
      have h2 : ((drainSeq rest
          (check_and_delete_due_messages c.1 c.2.1 c.2.2 st).1).2.count id) = 0 := by
        rw [List.count_eq_zero]
        apply drainSeq_not_executed
        rw [check_sched_eq]
        exact lookupA_foldl_eraseA_of_mem hnd (by rwa [execIds_eq] at hmem)
      omega
    · have h1 : (execIds c.1 c.2.1 c.2.2 st).count id = 0 :=
        List.count_eq_zero.mpr hmem
      have h2 : ((drainSeq rest
          (check_and_delete_due_messages c.1 c.2.1 c.2.2 st).1).2.count id) ≤ 1 :=
        ih (check_nodup_preserved hnd)
      omega

/-- C2: when the purge queue has no duplicate task keys (a dict invariant),
a task id executed by a drain call is removed from the durable queue
unconditionally — the post-drain state is identical for every combination
of per-message deletion and notification outcomes, so a per-artifact
failure never prevents task removal — and no task id is ever executed
twice across any sequence of drain calls. -/
theorem drain_at_most_once (st : BotState)
    (hnd : (st.scheduled_deletions.map Prod.fst).Nodup)
    (delOk delOk2 : Int → Nat → Bool) (ntfOk ntfOk2 : Int → Bool) (now : Nat)
    (id : String) (calls : List ((Int → Nat → Bool) × (Int → Bool) × Nat)) :
    (id ∈ execIds delOk ntfOk now st →
      lookupA ((check_and_delete_due_messages delOk ntfOk now
        st).1.scheduled_deletions) id = none)
    ∧ (check_and_delete_due_messages delOk ntfOk now st).1 =
        (check_and_delete_due_messages delOk2 ntfOk2 now st).1
    ∧ ((drainSeq calls st).2.count id) ≤ 1 := by
  refine ⟨?_, rfl, drainSeq_count_le_one hnd id⟩
  intro h
  rw [check_sched_eq]
  exact lookupA_foldl_eraseA_of_mem hnd (by rwa [execIds_eq] at h)

/-- A concrete one-task queue used to instantiate the theorems. -/
def stW : BotState :=
  { payload_data := [("codeA", { name := "n", files := [7], created_at := 0 })]
    user_access := []
    admin_sessions := []
    caption_data := { start_caption := "", end_caption := "" }
    scheduled_deletions :=
      [("5_1_ff", { chat_id := 5, message_ids := [9, 10], delete_at := 100,
                    payload := "codeA" })]
    telegram_backup_ids := [] }

/-- Witness for C2 at a concrete queue, concrete oracles and a concrete
two-call drain sequence. -/
theorem drain_at_most_once_witness :
    (("5_1_ff" : String) ∈ execIds (fun _ _ => false) (fun _ => false) 200 stW →
      lookupA ((check_and_delete_due_messages (fun _ _ => false) (fun _ => false)
        200 stW).1.scheduled_deletions) "5_1_ff" = none)
    ∧ (check_and_delete_due_messages (fun _ _ => false) (fun _ => false) 200 stW).1 =
        (check_and_delete_due_messages (fun _ _ => true) (fun _ => true) 200 stW).1
    ∧ ((drainSeq [(fun _ _ => false, fun _ => false, 200),
        (fun _ _ => true, fun _ => true, 300)] stW).2.count "5_1_ff") ≤ 1 :=
  drain_at_most_once stW (by decide) (fun _ _ => false) (fun _ _ => true)
    (fun _ => false) (fun _ => true) 200 "5_1_ff"
    [(fun _ _ => false, fun _ => false, 200), (fun _ _ => true, fun _ => true, 300)]

/-! ## The /start access path (C1, C5, C10) -/

/-- State after user 4 in chat 3 first accesses payload codeA at time 0. -/
def c1FirstAccess : BotState :=
  (start (fun _ _ => true) (fun _ => true) (fun _ => some 50) "aa"
    1 4 3 (some "codeA") 0 stW).1

/-- State after the same user accesses the same payload again at time 10,
well before the expiry 0 + 3600 of the first grant. -/
def c1SecondAccess : BotState :=
  (start (fun _ _ => true) (fun _ => true) (fun _ => some 50) "bb"
    1 4 3 (some "codeA") 10 c1FirstAccess).1

/-- C1 counterexample: the first access stores firstAccessAt = 0; a second
access at time 10 < 0 + 3600 overwrites the stored value with 10, so the
stored firstAccessAt is no longer the value set by the first call. -/
theorem access_time_overwritten_counterexample :
    accessTime c1FirstAccess "codeA" "4" = some 0
    ∧ 10 < 0 + 3600
    ∧ accessTime c1SecondAccess "codeA" "4" = some 10
    ∧ accessTime c1SecondAccess "codeA" "4" ≠ some 0 := by
  refine ⟨by decide, by decide, by decide, by decide⟩

/-- Whenever the requested code resolves, /start stores the current instant
as the access time of the (code, requester) pair, whatever was stored
before. -/
theorem start_access_time_now
    (delOk : Int → Nat → Bool) (ntfOk : Int → Bool) (copyRes : Nat → Option Nat)
    (suffix : String) (adminId userId chatId : Int) (code : String) (now : Nat)
    (st : BotState) (rec : PayloadRec)
    (hcode : lookupA st.payload_data code = some rec) :
    accessTime (start delOk ntfOk copyRes suffix adminId userId chatId
      (some code) now st).1 code (toString userId) = some now := by
  have h1 : lookupA (check_and_delete_due_messages delOk ntfOk now
      st).1.payload_data code = some rec := by
    rw [check_payload_data]
    exact hcode
  simp only [start, h1]
  simp [accessTime, lookupA_insertA_self]

/-- C1 amended: the first access to a (code, requester) pair records the
access time; every subsequent access — including one strictly before the
previous time plus the 3600 s retention window — overwrites the stored
time with the current instant (the handler performs no expiry comparison
and reads no stored value before writing). -/
theorem start_rerecords_access_time
    (delOk : Int → Nat → Bool) (ntfOk : Int → Bool) (copyRes : Nat → Option Nat)
    (suffix : String) (adminId userId chatId : Int) (code : String) (now : Nat)
    (st : BotState) (rec : PayloadRec)
    (hcode : lookupA st.payload_data code = some rec) :
    accessTime (start delOk ntfOk copyRes suffix adminId userId chatId
      (some code) now st).1 code (toString userId) = some now :=
  start_access_time_now delOk ntfOk copyRes suffix adminId userId chatId code
    now st rec hcode

/-- Witness for the amended C1: a repeat access at time 10, before the
expiry of the grant stored at time 0, stores 10. -/
theorem start_rerecords_access_time_witness :
    accessTime (start (fun _ _ => true) (fun _ => true) (fun _ => some 50) "bb"
      1 4 3 (some "codeA") 10 c1FirstAccess).1 "codeA" "4" = some 10 :=
  start_rerecords_access_time (fun _ _ => true) (fun _ => true) (fun _ => some 50)
    "bb" 1 4 3 "codeA" 10 c1FirstAccess
    { name := "n", files := [7], created_at := 0 } (by decide)

/-- C5 counterexample: payload codeA is present and every per-file
copy_message attempt fails, yet the handler still enqueues a purge task
(with an empty artifact list) and still records the access grant. -/
theorem enqueue_despite_total_delivery_failure_counterexample :
    lookupA (start (fun _ _ => true) (fun _ => true) (fun _ => none) "xy"
        1 4 3 (some "codeA") 50 stW).1.scheduled_deletions "3_50_xy" =
      some { chat_id := 3, message_ids := [], delete_at := 3650, payload := "codeA" }
    ∧ accessTime (start (fun _ _ => true) (fun _ => true) (fun _ => none) "xy"
        1 4 3 (some "codeA") 50 stW).1 "codeA" "4" = some 50 := by
  refine ⟨by decide, by decide⟩

/-- C5 amended: after a successful code resolution the purge task and the
access record are written unconditionally, whatever the per-file delivery
outcomes; in particular when every delivery attempt fails the enqueued task
carries an empty artifact list and the grant is still recorded. -/
theorem start_enqueue_unconditional
    (delOk : Int → Nat → Bool) (ntfOk : Int → Bool) (copyRes : Nat → Option Nat)
    (suffix : String) (adminId userId chatId : Int) (code : String) (now : Nat)
    (st : BotState) (rec : PayloadRec)
    (hcode : lookupA st.payload_data code = some rec)
    (hfail : ∀ f ∈ rec.files, copyRes f = none) :
    lookupA (start delOk ntfOk copyRes suffix adminId userId chatId
        (some code) now st).1.scheduled_deletions (deletionId chatId now suffix) =
      some { chat_id := chatId, message_ids := [], delete_at := now + 3600,
             payload := code }
    ∧ accessTime (start delOk ntfOk copyRes suffix adminId userId chatId
        (some code) now st).1 code (toString userId) = some now := by
  have h1 : lookupA (check_and_delete_due_messages delOk ntfOk now
      st).1.payload_data code = some rec := by
    rw [check_payload_data]
    exact hcode
  have hsent : rec.files.filterMap copyRes = [] := List.filterMap_eq_nil_iff.mpr hfail
  constructor
  · simp only [start, h1]
    simp [hsent, lookupA_insertA_self]
  · exact start_access_time_now delOk ntfOk copyRes suffix adminId userId
      chatId code now st rec hcode

/-- Witness for the amended C5 at the concrete failing delivery. -/
theorem start_enqueue_unconditional_witness :
    lookupA (start (fun _ _ => true) (fun _ => true) (fun _ => none) "xy"
        1 4 3 (some "codeA") 50 stW).1.scheduled_deletions (deletionId 3 50 "xy") =
      some { chat_id := 3, message_ids := [], delete_at := 50 + 3600,
             payload := "codeA" }
    ∧ accessTime (start (fun _ _ => true) (fun _ => true) (fun _ => none) "xy"
        1 4 3 (some "codeA") 50 stW).1 "codeA" "4" = some 50 :=
  start_enqueue_unconditional (fun _ _ => true) (fun _ => true) (fun _ => none)
    "xy" 1 4 3 "codeA" 50 stW { name := "n", files := [7], created_at := 0 }
    (by decide) (by decide)

/-- C10: an Access event carrying a code not present in the registry is
rejected with the invalid-link reply and changes nothing beyond the
mandatory drain prelude: the resulting state is exactly the drained state,
the registry and the access table are those of the incoming state, and no
purge task is enqueued. -/
theorem start_unknown_code_no_state_change
    (delOk : Int → Nat → Bool) (ntfOk : Int → Bool) (copyRes : Nat → Option Nat)
    (suffix : String) (adminId userId chatId : Int) (code : String) (now : Nat)
    (st : BotState) (hcode : lookupA st.payload_data code = none) :
    start delOk ntfOk copyRes suffix adminId userId chatId (some code) now st =
      ((check_and_delete_due_messages delOk ntfOk now st).1, StartReply.invalidLink)
    ∧ (start delOk ntfOk copyRes suffix adminId userId chatId (some code) now
        st).1.payload_data = st.payload_data
    ∧ (start delOk ntfOk copyRes suffix adminId userId chatId (some code) now
        st).1.user_access = st.user_access
    ∧ ∀ id, lookupA st.scheduled_deletions id = none →
        lookupA (start delOk ntfOk copyRes suffix adminId userId chatId
          (some code) now st).1.scheduled_deletions id = none := by
  have h1 : lookupA (check_and_delete_due_messages delOk ntfOk now
      st).1.payload_data code = none := by
    rw [check_payload_data]
    exact hcode
  refine ⟨?_, ?_, ?_, ?_⟩
  · simp only [start, h1]
  · simp only [start, h1]
    exact check_payload_data delOk ntfOk now st
  · simp only [start, h1]
    exact check_user_access delOk ntfOk now st
  · intro id hid
    simp only [start, h1]
    exact check_none_preserved hid

/-- Witness for C10 at a concrete unknown code. -/
theorem start_unknown_code_no_state_change_witness :
    start (fun _ _ => true) (fun _ => true) (fun _ => some 50) "zz"
        1 4 3 (some "nosuch") 200 stW =
      ((check_and_delete_due_messages (fun _ _ => true) (fun _ => true) 200
        stW).1, StartReply.invalidLink)
    ∧ (start (fun _ _ => true) (fun _ => true) (fun _ => some 50) "zz"
        1 4 3 (some "nosuch") 200 stW).1.payload_data = stW.payload_data
    ∧ (start (fun _ _ => true) (fun _ => true) (fun _ => some 50) "zz"
        1 4 3 (some "nosuch") 200 stW).1.user_access = stW.user_access
    ∧ ∀ id, lookupA stW.scheduled_deletions id = none →
        lookupA (start (fun _ _ => true) (fun _ => true) (fun _ => some 50) "zz"
          1 4 3 (some "nosuch") 200 stW).1.scheduled_deletions id = none :=
  start_unknown_code_no_state_change (fun _ _ => true) (fun _ => true)
    (fun _ => some 50) "zz" 1 4 3 "nosuch" 200 stW (by decide)

/-! ## Frame facts about backup_to_telegram: only the pointer table moves -/

theorem backup_payload_data (u : Option Nat) (ft : String) (s : BotState) :
    (backup_to_telegram u ft s).1.payload_data = s.payload_data := by
  cases u <;> rfl

theorem backup_user_access (u : Option Nat) (ft : String) (s : BotState) :
    (backup_to_telegram u ft s).1.user_access = s.user_access := by
  cases u <;> rfl

theorem backup_admin_sessions (u : Option Nat) (ft : String) (s : BotState) :
    (backup_to_telegram u ft s).1.admin_sessions = s.admin_sessions := by
  cases u <;> rfl

theorem backup_scheduled_deletions (u : Option Nat) (ft : String) (s : BotState) :
    (backup_to_telegram u ft s).1.scheduled_deletions = s.scheduled_deletions := by
  cases u <;> rfl

theorem backup_caption_data (u : Option Nat) (ft : String) (s : BotState) :
    (backup_to_telegram u ft s).1.caption_data = s.caption_data := by
  cases u <;> rfl

/-- C8: the snapshot pointer for a table is written only when the upload
completed: a failed upload leaves the state (pointer table included)
untouched and returns False to the caller, while a successful upload sets
exactly the pointer for that table and leaves every local durable table
unchanged. -/
theorem backup_pointer_only_on_success (uploadRes : Option Nat) (ft : String)
    (st : BotState) :
    ((backup_to_telegram uploadRes ft st).2 = true ↔ uploadRes ≠ none)
    ∧ (uploadRes = none → backup_to_telegram uploadRes ft st = (st, false))
    ∧ (∀ m, uploadRes = some m →
        (backup_to_telegram uploadRes ft st).1.telegram_backup_ids =
          insertA ft m st.telegram_backup_ids
        ∧ (backup_to_telegram uploadRes ft st).1.payload_data = st.payload_data
        ∧ (backup_to_telegram uploadRes ft st).1.user_access = st.user_access
        ∧ (backup_to_telegram uploadRes ft st).1.scheduled_deletions =
            st.scheduled_deletions
        ∧ (backup_to_telegram uploadRes ft st).1.caption_data = st.caption_data
        ∧ (backup_to_telegram uploadRes ft st).2 = true) := by
  cases uploadRes <;> simp [backup_to_telegram]

/-- Witness for C8 at a successful concrete upload. -/
theorem backup_pointer_only_on_success_witness :
    ((backup_to_telegram (some 7) "payload" stW).2 = true ↔ (some 7 : Option Nat) ≠ none)
    ∧ ((some 7 : Option Nat) = none →
        backup_to_telegram (some 7) "payload" stW = (stW, false))
    ∧ (∀ m, (some 7 : Option Nat) = some m →
        (backup_to_telegram (some 7) "payload" stW).1.telegram_backup_ids =
          insertA "payload" m stW.telegram_backup_ids
        ∧ (backup_to_telegram (some 7) "payload" stW).1.payload_data = stW.payload_data
        ∧ (backup_to_telegram (some 7) "payload" stW).1.user_access = stW.user_access
        ∧ (backup_to_telegram (some 7) "payload" stW).1.scheduled_deletions =
            stW.scheduled_deletions
        ∧ (backup_to_telegram (some 7) "payload" stW).1.caption_data = stW.caption_data
        ∧ (backup_to_telegram (some 7) "payload" stW).2 = true) :=
  backup_pointer_only_on_success (some 7) "payload" stW

/-! ## Authoring-session finalization (C3) -/

/-- C3: finalizing an authoring session whose collected file list is empty
is rejected: the handler answers the no-files error (so no code is issued),
writes no payload record — the registry after the call is the registry
before it — and drops the session. -/
theorem stop_payload_empty_session_rejected
    (delOk : Int → Nat → Bool) (ntfOk : Int → Bool) (uploadRes : Option Nat)
    (freshCode : String) (adminId : Int) (now : Nat) (st : BotState) (s : Session)
    (hnd : (st.admin_sessions.map Prod.fst).Nodup)
    (hsession : lookupA st.admin_sessions adminId = some s)
    (hempty : s.files = []) :
    (stop_payload delOk ntfOk uploadRes freshCode adminId adminId now
      st).1.payload_data = st.payload_data
    ∧ (stop_payload delOk ntfOk uploadRes freshCode adminId adminId now st).2 =
        StopReply.noFiles
    ∧ lookupA (stop_payload delOk ntfOk uploadRes freshCode adminId adminId now
        st).1.admin_sessions adminId = none := by
  have h1 : lookupA (check_and_delete_due_messages delOk ntfOk now
      st).1.admin_sessions adminId = some s := by
    rw [check_admin_sessions]
    exact hsession
  have hres : stop_payload delOk ntfOk uploadRes freshCode adminId adminId now st =
      ({ (check_and_delete_due_messages delOk ntfOk now st).1 with
          admin_sessions := eraseA adminId
            (check_and_delete_due_messages delOk ntfOk now st).1.admin_sessions },
        StopReply.noFiles) := by
    simp [stop_payload, h1, hempty]
  refine ⟨?_, ?_, ?_⟩
  · rw [hres]
    exact check_payload_data delOk ntfOk now st
  · rw [hres]
  · rw [hres]
    have : ((check_and_delete_due_messages delOk ntfOk now
        st).1.admin_sessions.map Prod.fst).Nodup := by
      rw [check_admin_sessions]
      exact hnd
    exact lookupA_eraseA_self this

/-- A state holding one open authoring session with no collected files. -/
def stSession : BotState :=
  { stW with admin_sessions := [(1, { payload := "movies", files := [] })] }

/-- Witness for C3 at the concrete empty session. -/
theorem stop_payload_empty_session_rejected_witness :
    (stop_payload (fun _ _ => true) (fun _ => true) (some 7) "freshCodeX" 1 1 40
      stSession).1.payload_data = stSession.payload_data
    ∧ (stop_payload (fun _ _ => true) (fun _ => true) (some 7) "freshCodeX" 1 1 40
        stSession).2 = StopReply.noFiles
    ∧ lookupA (stop_payload (fun _ _ => true) (fun _ => true) (some 7) "freshCodeX"
        1 1 40 stSession).1.admin_sessions 1 = none :=
  stop_payload_empty_session_rejected (fun _ _ => true) (fun _ => true) (some 7)
    "freshCodeX" 1 40 stSession { payload := "movies", files := [] }
    (by decide) (by decide) rfl

/-! ## Payload deletion (C7) -/

/-- C7: deleting a present code removes its payload record and cascades the
deletion of the whole access-grant table for that code, while every other
payload, every grant table of another code, and every purge task that was
not yet due at the handling instant are left unchanged; the purge queue
itself is exactly the drained queue — the delete step touches no purge
task, not even those sourced from the deleted payload. -/
theorem delete_payload_cascades_and_frames
    (delOk : Int → Nat → Bool) (ntfOk : Int → Bool) (uploadRes : Option Nat)
    (adminId : Int) (code : String) (now : Nat) (st : BotState) (rec : PayloadRec)
    (hndp : (st.payload_data.map Prod.fst).Nodup)
    (hnda : (st.user_access.map Prod.fst).Nodup)
    (hcode : lookupA st.payload_data code = some rec) :
    lookupA (delete_payload delOk ntfOk uploadRes adminId adminId (some code) now
      st).1.payload_data code = none
    ∧ lookupA (delete_payload delOk ntfOk uploadRes adminId adminId (some code) now
        st).1.user_access code = none
    ∧ (∀ c, c ≠ code →
        lookupA (delete_payload delOk ntfOk uploadRes adminId adminId (some code)
          now st).1.payload_data c = lookupA st.payload_data c)
    ∧ (∀ c, c ≠ code →
        lookupA (delete_payload delOk ntfOk uploadRes adminId adminId (some code)
          now st).1.user_access c = lookupA st.user_access c)
    ∧ (delete_payload delOk ntfOk uploadRes adminId adminId (some code) now
        st).1.scheduled_deletions =
      (check_and_delete_due_messages delOk ntfOk now st).1.scheduled_deletions
    ∧ (∀ id t, lookupA st.scheduled_deletions id = some t → now < t.delete_at →
        (st.scheduled_deletions.map Prod.fst).Nodup →
        lookupA (delete_payload delOk ntfOk uploadRes adminId adminId (some code)
          now st).1.scheduled_deletions id = some t)
    ∧ (delete_payload delOk ntfOk uploadRes adminId adminId (some code) now st).2 =
        DeleteReply.deleted rec.name := by
  have h1 : lookupA (check_and_delete_due_messages delOk ntfOk now
      st).1.payload_data code = some rec := by
    rw [check_payload_data]
    exact hcode
  have hpd : (delete_payload delOk ntfOk uploadRes adminId adminId (some code) now
      st).1.payload_data =
      eraseA code (check_and_delete_due_messages delOk ntfOk now st).1.payload_data := by
    simp [delete_payload, h1, backup_payload_data]
  have hua : (delete_payload delOk ntfOk uploadRes adminId adminId (some code) now
      st).1.user_access =
      eraseA code (check_and_delete_due_messages delOk ntfOk now st).1.user_access := by
    simp [delete_payload, h1, backup_user_access]
  have hsd : (delete_payload delOk ntfOk uploadRes adminId adminId (some code) now
      st).1.scheduled_deletions =
      (check_and_delete_due_messages delOk ntfOk now st).1.scheduled_deletions := by
    simp [delete_payload, h1, backup_scheduled_deletions]
  refine ⟨?_, ?_, ?_, ?_, hsd, ?_, ?_⟩
  · rw [hpd, check_payload_data]
    exact lookupA_eraseA_self hndp
  · rw [hua, check_user_access]
    exact lookupA_eraseA_self hnda
  · intro c hc
    rw [hpd, check_payload_data]
    exact lookupA_eraseA_ne hc
  · intro c hc
    rw [hua, check_user_access]
    exact lookupA_eraseA_ne hc
  · intro id t hl hnot hnds
    rw [hsd]
    exact check_keeps_not_due hnds hl hnot
  · simp [delete_payload, h1]

/-- Witness for C7: deleting codeA from stW while its not-yet-due purge
task is pending. -/
theorem delete_payload_cascades_and_frames_witness :
    lookupA (delete_payload (fun _ _ => true) (fun _ => true) (some 7) 1 1
      (some "codeA") 40 stW).1.payload_data "codeA" = none
    ∧ lookupA (delete_payload (fun _ _ => true) (fun _ => true) (some 7) 1 1
        (some "codeA") 40 stW).1.user_access "codeA" = none
    ∧ (∀ c, c ≠ "codeA" →
        lookupA (delete_payload (fun _ _ => true) (fun _ => true) (some 7) 1 1
          (some "codeA") 40 stW).1.payload_data c = lookupA stW.payload_data c)
    ∧ (∀ c, c ≠ "codeA" →
        lookupA (delete_payload (fun _ _ => true) (fun _ => true) (some 7) 1 1
          (some "codeA") 40 stW).1.user_access c = lookupA stW.user_access c)
    ∧ (delete_payload (fun _ _ => true) (fun _ => true) (some 7) 1 1
        (some "codeA") 40 stW).1.scheduled_deletions =
      (check_and_delete_due_messages (fun _ _ => true) (fun _ => true) 40
        stW).1.scheduled_deletions
    ∧ (∀ id t, lookupA stW.scheduled_deletions id = some t → 40 < t.delete_at →
        (stW.scheduled_deletions.map Prod.fst).Nodup →
        lookupA (delete_payload (fun _ _ => true) (fun _ => true) (some 7) 1 1
          (some "codeA") 40 stW).1.scheduled_deletions id = some t)
    ∧ (delete_payload (fun _ _ => true) (fun _ => true) (some 7) 1 1
        (some "codeA") 40 stW).2 = DeleteReply.deleted "n" :=
  delete_payload_cascades_and_frames (fun _ _ => true) (fun _ => true) (some 7)
    1 "codeA" 40 stW { name := "n", files := [7], created_at := 0 }
    (by decide) (by decide) (by decide)

/-! ## Registry mutation through the JSON-upload path (C6) -/

/-- The payload table the admin uploads in the counterexample: the existing
code kept, its content changed. -/
def c6NewData : List (String × PayloadRec) :=
  [("codeA", { name := "n", files := [3], created_at := 0 })]

/-- C6 counterexample: the registry holds codeA with files [7]; the admin
JSON-upload branch of the message handler — an operation reachable from an
inbound event that is neither create nor delete — leaves codeA present with
files [3]: an existing payload's content was modified in place. -/
theorem payload_mutated_by_upload_counterexample :
    lookupA stW.payload_data "codeA" =
      some { name := "n", files := [7], created_at := 0 }
    ∧ lookupA (handle_json_upload (fun _ _ => true) (fun _ => true) (some 9) 1 1
        c6NewData 50 stW).payload_data "codeA" =
      some { name := "n", files := [3], created_at := 0 }
    ∧ ({ name := "n", files := [3], created_at := 0 } : PayloadRec) ≠
        { name := "n", files := [7], created_at := 0 } := by
  refine ⟨by decide, by decide, by decide⟩

/-- C6 amended: create and delete are not the only registry mutation paths;
whenever the admin sends a payload-shaped .json document, the message
handler replaces the whole payload table with the uploaded data, so
existing payload content is mutable after creation through this path (and
through the cloud-restore path, which likewise overwrites the table). -/
theorem json_upload_replaces_registry
    (delOk : Int → Nat → Bool) (ntfOk : Int → Bool) (uploadRes : Option Nat)
    (adminId : Int) (new_data : List (String × PayloadRec)) (now : Nat)
    (st : BotState) :
    (handle_json_upload delOk ntfOk uploadRes adminId adminId new_data now
      st).payload_data = new_data := by
  simp [handle_json_upload, backup_payload_data]

/-! ## Which handlers drain first (C4) -/

/-- After /start, the queue is the drained queue except possibly for the
freshly scheduled deletion id. -/
theorem start_sched_lookup_none
    {delOk : Int → Nat → Bool} {ntfOk : Int → Bool} {copyRes : Nat → Option Nat}
    {suffix : String} {adminId userId chatId : Int} {arg : Option String}
    {now : Nat} {st : BotState} {id : String}
    (h : lookupA (check_and_delete_due_messages delOk ntfOk now
      st).1.scheduled_deletions id = none)
    (hfresh : id ≠ deletionId chatId now suffix) :
    lookupA (start delOk ntfOk copyRes suffix adminId userId chatId arg now
      st).1.scheduled_deletions id = none := by
  unfold start
  match arg with
  | none => exact h
  | some payload =>
    cases hl : lookupA (check_and_delete_due_messages delOk ntfOk now
        st).1.payload_data payload with
    | none => simpa [hl] using h
    | some rec =>
      simp only [hl]
      rw [lookupA_insertA_ne hfresh]
      exact h

/-- /stopp never touches the purge queue after the drain. -/
theorem stop_payload_sched (delOk : Int → Nat → Bool) (ntfOk : Int → Bool)
    (uploadRes : Option Nat) (freshCode : String) (adminId userId : Int)
    (now : Nat) (st : BotState) :
    (stop_payload delOk ntfOk uploadRes freshCode adminId userId now
      st).1.scheduled_deletions =
    (check_and_delete_due_messages delOk ntfOk now st).1.scheduled_deletions := by
  unfold stop_payload
  dsimp only
  split
  · rfl
  · split
    · rfl
    · split
      · rfl
      · simp [backup_scheduled_deletions]

/-- /deletepayload never touches the purge queue after the drain. -/
theorem delete_payload_sched (delOk : Int → Nat → Bool) (ntfOk : Int → Bool)
    (uploadRes : Option Nat) (adminId userId : Int) (arg : Option String)
    (now : Nat) (st : BotState) :
    (delete_payload delOk ntfOk uploadRes adminId userId arg now
      st).1.scheduled_deletions =
    (check_and_delete_due_messages delOk ntfOk now st).1.scheduled_deletions := by
  unfold delete_payload
  dsimp only
  split
  · rfl
  · split
    · rfl
    · split
      · rfl
      · simp [backup_scheduled_deletions]

/-- The JSON-upload branch never touches the purge queue after the drain. -/
theorem handle_json_upload_sched (delOk : Int → Nat → Bool) (ntfOk : Int → Bool)
    (uploadRes : Option Nat) (adminId userId : Int)
    (new_data : List (String × PayloadRec)) (now : Nat) (st : BotState) :
    (handle_json_upload delOk ntfOk uploadRes adminId userId new_data now
      st).scheduled_deletions =
    (check_and_delete_due_messages delOk ntfOk now st).1.scheduled_deletions := by
  unfold handle_json_upload
  dsimp only
  split
  · simp [backup_scheduled_deletions]
  · rfl

/-- /backupnow leaves the purge queue exactly as it found it: it never
drains. -/
theorem backup_now_sched (upl : String → Option Nat) (adminId userId : Int)
    (st : BotState) :
    (backup_now upl adminId userId st).1.scheduled_deletions =
      st.scheduled_deletions := by
  unfold backup_now
  dsimp only
  split
  · rfl
  · simp [backup_scheduled_deletions]

/-- C4 counterexample: stW holds a purge task due at instant 100.  The
admin invokes /backupnow (necessarily at some instant after the task was
enqueued; take any instant ≥ 100, when the task is overdue): the handler
mutates core state — the snapshot pointer table — yet the due task is still
in the queue afterwards, because backup_now performs no drain at all.  So
not every inbound handling path drains the purge queue before its other
core logic. -/
theorem backup_now_skips_drain_counterexample :
    (backup_now (fun _ => some 7) 1 1 stW).1.scheduled_deletions =
      stW.scheduled_deletions
    ∧ lookupA (backup_now (fun _ => some 7) 1 1 stW).1.scheduled_deletions
        "5_1_ff" = some { chat_id := 5, message_ids := [9, 10], delete_at := 100,
                          payload := "codeA" }
    ∧ (backup_now (fun _ => some 7) 1 1 stW).1.telegram_backup_ids ≠
        stW.telegram_backup_ids
    ∧ (∀ delOk ntfOk, lookupA (check_and_delete_due_messages delOk ntfOk 100
        stW).1.scheduled_deletions "5_1_ff" = none) := by
  refine ⟨by decide, by decide, by decide, ?_⟩
  intro delOk ntfOk
  exact @check_removes_due delOk ntfOk 100 stW "5_1_ff"
    { chat_id := 5, message_ids := [9, 10], delete_at := 100, payload := "codeA" }
    (by decide) (by decide) (by decide)

/-- C4 amended: the handlers for /start, /stopp, /deletepayload and the
message handler (here its JSON-upload branch) drain the purge queue before
any other core logic — after any of them runs, every task that was due at
the handling instant is gone from the queue (for /start, any id other than
the freshly scheduled one) — but /backupnow (like /restorefromcloud,
/downloadjson and /uploadjson) performs its core logic without ever
draining, and /checkdeletions drains only after replying. -/
theorem drain_first_discipline
    (delOk : Int → Nat → Bool) (ntfOk : Int → Bool) (copyRes : Nat → Option Nat)
    (suffix : String) (uploadRes : Option Nat) (upl : String → Option Nat)
    (adminId userId chatId : Int) (arg argD : Option String) (freshCode : String)
    (new_data : List (String × PayloadRec)) (now : Nat) (st : BotState)
    (id : String) (t : DeletionTask)
    (hnd : (st.scheduled_deletions.map Prod.fst).Nodup)
    (hl : lookupA st.scheduled_deletions id = some t)
    (hdue : t.delete_at ≤ now)
    (hfresh : id ≠ deletionId chatId now suffix) :
    lookupA (start delOk ntfOk copyRes suffix adminId userId chatId arg now
      st).1.scheduled_deletions id = none
    ∧ lookupA (stop_payload delOk ntfOk uploadRes freshCode adminId userId now
        st).1.scheduled_deletions id = none
    ∧ lookupA (delete_payload delOk ntfOk uploadRes adminId userId argD now
        st).1.scheduled_deletions id = none
    ∧ lookupA (handle_json_upload delOk ntfOk uploadRes adminId userId new_data
        now st).scheduled_deletions id = none
    ∧ (backup_now upl adminId userId st).1.scheduled_deletions =
        st.scheduled_deletions := by
  have hdrained : lookupA (check_and_delete_due_messages delOk ntfOk now
      st).1.scheduled_deletions id = none := check_removes_due hnd hl hdue
  refine ⟨start_sched_lookup_none hdrained hfresh, ?_, ?_, ?_,
    backup_now_sched upl adminId userId st⟩
  · rw [stop_payload_sched]
    exact hdrained
  · rw [delete_payload_sched]
    exact hdrained
  · rw [handle_json_upload_sched]
    exact hdrained

/-- Witness for the amended C4 at the concrete overdue task of stW. -/
theorem drain_first_discipline_witness :
    lookupA (start (fun _ _ => true) (fun _ => true) (fun _ => some 50) "zz"
      1 4 3 (some "codeA") 200 stW).1.scheduled_deletions "5_1_ff" = none
    ∧ lookupA (stop_payload (fun _ _ => true) (fun _ => true) (some 7) "fresh"
        1 4 200 stW).1.scheduled_deletions "5_1_ff" = none
    ∧ lookupA (delete_payload (fun _ _ => true) (fun _ => true) (some 7) 1 4
        (some "codeA") 200 stW).1.scheduled_deletions "5_1_ff" = none
    ∧ lookupA (handle_json_upload (fun _ _ => true) (fun _ => true) (some 7) 1 4
        c6NewData 200 stW).scheduled_deletions "5_1_ff" = none
    ∧ (backup_now (fun _ => some 7) 1 4 stW).1.scheduled_deletions =
        stW.scheduled_deletions :=
  drain_first_discipline (fun _ _ => true) (fun _ => true) (fun _ => some 50)
    "zz" (some 7) (fun _ => some 7) 1 4 3 (some "codeA") (some "codeA") "fresh"
    c6NewData 200 stW "5_1_ff"
    { chat_id := 5, message_ids := [9, 10], delete_at := 100, payload := "codeA" }
    (by decide) (by decide) (by decide) (by decide)

/-! ## Snapshot round-trip (C9)

restore_from_telegram passes the fabricated string
f"get_from_message_{message_id}" to bot.get_file, but get_file only
resolves the opaque file identifiers the transport assigned at upload,
which all carry the transport tag. -/

theorem fabricated_ne_fileIdFor (m k : Nat) :
    ("get_from_message_" ++ toString m) ≠ fileIdFor k := by
  intro h
  have hd : ("get_from_message_" ++ toString m).data = (fileIdFor k).data :=
    congrArg String.data h
  have h1 : ("get_from_message_" ++ toString m).data =
      'g' :: ("et_from_message_" ++ toString m).data := rfl
  have h2 : (fileIdFor k).data = 'A' :: ("gAD" ++ toString k).data := rfl
  rw [h1, h2] at hd
  injection hd with hc _
  exact absurd hc (by decide)

/-- On a well-formed sink, get_file with the fabricated identifier always
fails. -/
theorem get_file_fabricated_none {s : Sink} (hwf : SinkWF s) (m : Nat) :
    get_file ("get_from_message_" ++ toString m) s = none := by
  rw [get_file, lookupA_eq_none]
  intro hmem
  obtain ⟨p, hp, hfst⟩ := List.mem_map.mp hmem
  obtain ⟨k, hk⟩ := hwf p hp
  exact fabricated_ne_fileIdFor m k (hfst.symm.trans hk)

/-- C9: snapshotting a table and then restoring it does not reproduce the
data — it produces nothing at all.  The backup stores the sent message id
as the pointer, but the restore step fabricates the identifier
"get_from_message_<id>" for bot.get_file, which is never a
transport-assigned file identifier, so the download fails, the exception is
caught and restore returns no data, for every table and every serialized
content. -/
theorem restore_after_backup_returns_nothing (bytes ft : String) (s : Sink)
    (st : BotState) (hwf : SinkWF s) :
    restore_from_telegram (backup_via_sink bytes ft s st).1 ft
      (backup_via_sink bytes ft s st).2 = none
    ∧ lookupA (backup_via_sink bytes ft s st).2.telegram_backup_ids ft =
        some s.nextMsgId := by
  have hwf2 : SinkWF (backup_via_sink bytes ft s st).1 := by
    intro p hp
    rcases List.mem_cons.mp hp with h1 | h1
    · exact ⟨s.nextMsgId, by rw [h1]⟩
    · exact hwf p h1
  constructor
  · unfold restore_from_telegram
    have hptr : lookupA (backup_via_sink bytes ft s st).2.telegram_backup_ids ft =
        some s.nextMsgId := lookupA_insertA_self ft s.nextMsgId _
    rw [hptr]
    dsimp only
    rw [get_file_fabricated_none hwf2 s.nextMsgId]
  · exact lookupA_insertA_self ft s.nextMsgId _

/-- Witness for C9: backing up a concrete serialized table into an empty
sink and then restoring it yields nothing. -/
theorem restore_after_backup_returns_nothing_witness :
    restore_from_telegram
      (backup_via_sink "serializedPayloadTable" "payload" { files := [], nextMsgId := 0 } stW).1
      "payload"
      (backup_via_sink "serializedPayloadTable" "payload" { files := [], nextMsgId := 0 } stW).2 = none
    ∧ lookupA (backup_via_sink "serializedPayloadTable" "payload"
        { files := [], nextMsgId := 0 } stW).2.telegram_backup_ids "payload" =
      some 0 :=
  restore_after_backup_returns_nothing "serializedPayloadTable" "payload"
    { files := [], nextMsgId := 0 } stW (fun p hp => absurd hp (List.not_mem_nil p))

end TelegramFileBot
